import Mathlib

/-!
Verification development for the UKFuelTracker repository.

Shallow embedding of the aggregation / geo-filter / statistics / archival
pipeline.  JavaScript numbers appearing in data (prices, coordinates,
timestamps) are modelled as rationals (`ℚ`); the transcendental haversine
computation is modelled over the reals (`ℝ`).  `NaN` has no counterpart in
`ℚ`/`ℝ`; where the source tests `isNaN` or relies on `NaN` comparisons the
comment at the definition records the correspondence.
-/

/-- `location` object of a station (src/types: `{latitude, longitude}`). -/
structure Loc where
  latitude : ℚ
  longitude : ℚ
deriving DecidableEq, Repr

/-- Canonical station record (src/types `FuelStation`).  `location` is
`Option` because the query code guards on `station.location &&` (the field
can be `null`/missing in real feeds).  `prices` is the open-keyed map from
fuel-type code to price, modelled as an association list in object-key
order. -/
structure Station where
  site_id : String
  brand : String
  address : String
  postcode : String
  location : Option Loc
  prices : List (String × ℚ)
deriving DecidableEq, Repr

/-- One retailer snapshot (src/types `FuelData`).  `last_updated` is the
parsed timestamp in milliseconds since the epoch (the code immediately
converts the ISO string with `new Date(...)`). -/
structure FuelData where
  last_updated : ℚ
  stations : List Station
deriving DecidableEq, Repr

/-! ## Archival decision (src/app/src/lib/github-storage.ts, `shouldArchiveData`) -/

/-- Inner loop of `shouldArchiveData`: `for (const [fuelType, price] of
Object.entries(newStation.prices)) { const existingPrice =
existingStation.prices[fuelType]; if (!existingPrice || Math.abs(price -
existingPrice) > 1) { changedStations++; break; } }`.  `!existingPrice` is
true when the prior map has no entry for the fuel type or its value is `0`
(`NaN` is not modelled). -/
def stationChanged (newStation existingStation : Station) : Bool :=
  newStation.prices.any fun e =>
    match existingStation.prices.lookup e.1 with
    | none => true
    | some v => decide (v = 0) || decide (1 < |e.2 - v|)

/-- `existingData.stations.find(s => s.site_id === newStation.site_id)`. -/
def findStation (stations : List Station) (sid : String) : Option Station :=
  stations.find? fun s => s.site_id == sid

/-- Per-station change test of the `shouldArchiveData` loop: a new station
counts as changed when it is absent from the prior list (`!existingStation`)
or `stationChanged` holds. -/
def changedInSnapshot (oldStations : List Station) (ns : Station) : Bool :=
  match findStation oldStations ns.site_id with
  | none => true
  | some os => stationChanged ns os

/-- `changedStations` counter of `shouldArchiveData` (each new station
increments at most once thanks to the `break`/`continue`). -/
def changedStations (newStations oldStations : List Station) : ℕ :=
  (newStations.filter (changedInSnapshot oldStations)).length

/-- `GitHubStorage.shouldArchiveData` from src/app/src/lib/github-storage.ts,
as a pure function of the prior persisted snapshot (`none` = no prior file)
and the current clock (`nowMs`, milliseconds).  In the JS source
`changedStations / totalStations` is `NaN` when `totalStations = 0` and
`NaN > 0.05` is false; in the `ℚ` model `0 / 0 = 0` and `0 > 0.05` is false,
so the observable boolean agrees. -/
def shouldArchiveData : Option FuelData → ℚ → FuelData → Bool
  | none, _, _ => true
  | some ex, nowMs, newData =>
    if 24 ≤ (nowMs - ex.last_updated) / (1000 * 60 * 60) then
      true
    else
      decide ((changedStations newData.stations ex.stations : ℚ)
        / (newData.stations.length : ℚ) > 0.05)

/-- `shouldArchiveData` of the standalone collector script
(src/unnamed/part_002, lines 200-207): it ignores the snapshots entirely and
archives exactly at hours divisible by 6 (`currentTime.getHours() % 6 === 0`). -/
def shouldArchiveDataScript (hour : ℕ) : Bool :=
  hour % 6 == 0

/-! ### Declarative (spec-level) material-change predicates -/

/-- Declarative form of the per-fuel check actually performed by
`stationChanged`: the prior value for this fuel code is missing, is zero, or
differs from the new price by more than one unit. -/
def PriceEntryChanged (os : Station) (e : String × ℚ) : Prop :=
  (os.prices.lookup e.1).elim True fun v => v = 0 ∨ 1 < |e.2 - v|

instance (os : Station) (e : String × ℚ) : Decidable (PriceEntryChanged os e) :=
  match h : os.prices.lookup e.1 with
  | none => .isTrue (by simp [PriceEntryChanged, h])
  | some v => decidable_of_iff (v = 0 ∨ 1 < |e.2 - v|) (by simp [PriceEntryChanged, h])

/-- Declarative material-change predicate for one station of the incoming
snapshot: absent from the prior snapshot (joined by `site_id`), or some fuel
entry of its price map satisfies `PriceEntryChanged`. -/
def MaterialChange (oldStations : List Station) (ns : Station) : Prop :=
  (findStation oldStations ns.site_id).elim True
    fun os => ∃ e ∈ ns.prices, PriceEntryChanged os e

instance (oldStations : List Station) (ns : Station) :
    Decidable (MaterialChange oldStations ns) :=
  match h : findStation oldStations ns.site_id with
  | none => .isTrue (by simp [MaterialChange, h])
  | some os =>
      decidable_of_iff (∃ e ∈ ns.prices, PriceEntryChanged os e)
        (by simp [MaterialChange, h])

/-- Material change exactly as the claim words it: absent from the prior
snapshot, or some fuel price differing from the (existing) prior value by
more than 1 unit.  This definition follows the claim's sentence, for
comparison with the source-derived `changedInSnapshot`. -/
def specChangedInSnapshot (oldStations : List Station) (ns : Station) : Bool :=
  match findStation oldStations ns.site_id with
  | none => true
  | some os =>
      ns.prices.any fun e =>
        match os.prices.lookup e.1 with
        | none => false
        | some v => decide (1 < |e.2 - v|)

/-- Count of claim-worded materially changed stations. -/
def specChangedStations (newStations oldStations : List Station) : ℕ :=
  (newStations.filter (specChangedInSnapshot oldStations)).length

/-! ## Current-snapshot write (src/app/src/lib/github-storage.ts, `saveCurrentData`)

`saveCurrentData` performs one `getContent` call to obtain the file's current
blob sha (404 tolerated, yielding no sha) and then one
`createOrUpdateFileContents` carrying exactly that sha.  GitHub accepts the
write iff the supplied sha still matches the stored revision (`none`
matching "file absent"); on mismatch it returns a conflict error, which the
function rethrows — there is no retry loop.  The environment records what
the store returned to the read and what revision it held when the write
landed. -/

structure SaveEnv where
  /-- sha returned by the pre-write `getContent` (`none` = 404 / file absent). -/
  existingSha : Option ℕ
  /-- revision the store holds at the moment the write executes
  (differs from `existingSha` exactly when a concurrent writer intervened). -/
  shaAtWrite : Option ℕ
deriving DecidableEq, Repr

structure SaveRun where
  /-- `true` = the write succeeded; `false` = the error was rethrown to the caller. -/
  saved : Bool
  /-- number of `getContent` calls issued. -/
  getCalls : ℕ
  /-- number of `createOrUpdateFileContents` calls issued. -/
  putCalls : ℕ
  /-- the `sha` argument carried by each write, in order. -/
  putShas : List (Option ℕ)
deriving DecidableEq, Repr

/-- `GitHubStorage.saveCurrentData`: one read, one conditional write keyed on
the sha just read, no retry. -/
def saveCurrentData (env : SaveEnv) : SaveRun :=
  let sha := env.existingSha
  { saved := decide (sha = env.shaAtWrite)
    getCalls := 1
    putCalls := 1
    putShas := [sha] }

/-- `GitHubStorage.saveBulkData`: each successful fetch result is saved
independently; a failure (e.g. a CAS conflict) is caught per retailer
(`catch` + `console.error`) and does not affect the other retailers. -/
def saveBulkData (inputs : List (String × SaveEnv)) : List (String × Bool) :=
  inputs.map fun p => (p.1, (saveCurrentData p.2).saved)

/-! ## Retailer fetch orchestrator (src/unnamed/part_002, `fetchRetailerData`)

One ingest cycle attempts each source up to `maxRetries = 3` times, sleeping
2000 ms before attempts 2 and 3.  One attempt comprises the whole `try`
block (HTTP fetch with 30 s abort, content-type check, JSON parse,
`stations` array validation); its outcome is abstracted as an
`Except String FuelData` indexed by the attempt number.  Exhausted retries
return a single failure result carrying the last error; the function never
throws. -/

structure FetchResult where
  retailer : String
  success : Bool
  data : Option FuelData
  error : Option String
  stationCount : Option ℕ
deriving DecidableEq, Repr

structure FetchRun where
  result : FetchResult
  /-- number of attempts actually made. -/
  attempts : ℕ
  /-- the inter-attempt delays incurred, in milliseconds. -/
  delaysMs : List ℕ
deriving DecidableEq, Repr

/-- Result of a successful attempt (`{retailer, success: true, data,
stationCount: data.stations.length}`). -/
def okFetchResult (name : String) (d : FuelData) : FetchResult :=
  { retailer := name, success := true, data := some d, error := none
    stationCount := some d.stations.length }

/-- Result after exhausting the retries (`{retailer, success: false, error:
lastError.message}`). -/
def failFetchResult (name e : String) : FetchResult :=
  { retailer := name, success := false, data := none, error := some e
    stationCount := none }

/-- `fetchRetailerData` with the `maxRetries = 3` loop unrolled. -/
def fetchRetailerData (name : String)
    (attemptOutcome : ℕ → Except String FuelData) : FetchRun :=
  match attemptOutcome 1 with
  | .ok d => ⟨okFetchResult name d, 1, []⟩
  | .error _ =>
    match attemptOutcome 2 with
    | .ok d => ⟨okFetchResult name d, 2, [2000]⟩
    | .error _ =>
      match attemptOutcome 3 with
      | .ok d => ⟨okFetchResult name d, 3, [2000, 2000]⟩
      | .error e3 => ⟨failFetchResult name e3, 3, [2000, 2000]⟩

/-- The collection loop of `main`: sources are fetched in batches of 3 via
`Promise.allSettled` and their results pushed in input order;
`fetchRetailerData` never rejects, so every slot is fulfilled and the cycle
yields exactly one `FetchResult` per source, in source order. -/
def runFetchCycle (sources : List (String × (ℕ → Except String FuelData))) :
    List FetchResult :=
  sources.map fun src => (fetchRetailerData src.1 src.2).result

/-- `results.filter(r => r.success)` — the results that downstream
aggregation / bulk saving keeps. -/
def successfulResults (results : List FetchResult) : List FetchResult :=
  results.filter (·.success)

/-! ## Current-prices query (src/app/src/app/api/prices/current/route.ts) -/

/-- `prices[fuelType] !== undefined && prices[fuelType] > 0` — the fuel-type
filter shared by the current-prices route (lines 153-157) and the cheapest
route (lines 65-68). -/
def hasFuelB (fuel : String) (s : Station) : Bool :=
  (s.prices.lookup fuel).elim false fun p => decide (0 < p)

/-- `postcode.toLowerCase().replace(/\s+/g, '')`, as a character list. -/
def normPostcode (s : String) : List Char :=
  (s.data.map Char.toLower).filter fun c => !c.isWhitespace

/-- The degraded-postcode predicate (route lines 208-210 and 216-218):
`station.postcode.toLowerCase().replace(/\s+/g, '').startsWith(
postcode.toLowerCase().replace(/\s+/g, ''))`. -/
def postcodeMatches (query : String) (s : Station) : Bool :=
  List.isPrefixOf (normPostcode query) (normPostcode s.postcode)

/-- Outcome of the `api.postcodes.io` geocoding call. -/
inductive GeoResult where
  /-- HTTP body with `status === 200` and a `result` carrying coordinates. -/
  | ok (lat lng : ℝ)
  /-- well-formed body with non-200 status or missing `result`. -/
  | invalid
  /-- network error or malformed body (the `fetch`/`json()` call threw). -/
  | fetchFailed

/-- The four hardcoded fuel codes of the statistics block (route line 288). -/
def fuelTypes : List String := ["E10", "E5", "B7", "SDV"]

/-- `Math.round(x * 10) / 10` (JS `Math.round` is `⌊x + 1/2⌋`, as is
Mathlib's `round`). -/
def round1 (x : ℚ) : ℚ :=
  ((round (x * 10) : ℤ) : ℚ) / 10

/-- `filteredStations.map(s => s.prices[fuel]).filter(p => p !== undefined
&& p > 0)` — the qualifying price list for one fuel code (map-then-filter
fused into one `filterMap`). -/
def qualifyingPrices (stations : List Station) (fuel : String) : List ℚ :=
  stations.filterMap fun s =>
    match s.prices.lookup fuel with
    | some p => if 0 < p then some p else none
    | none => none

/-- `Math.min(...prices)` over a nonempty list (the empty case is never
reached in `priceStats`; it is given the dummy value 0). -/
def listMin : List ℚ → ℚ
  | [] => 0
  | h :: t => t.foldl min h

/-- `Math.max(...prices)` over a nonempty list (empty case unreachable). -/
def listMax : List ℚ → ℚ
  | [] => 0
  | h :: t => t.foldl max h

structure PriceStat where
  min : ℚ
  max : ℚ
  avg : ℚ
  count : ℕ
deriving DecidableEq, Repr

/-- Body of the `fuelTypes.forEach` statistics block for one fuel code:
`none` when no qualifying price exists (the fuel is then omitted from the
map), otherwise the `{min, max, avg, count}` record with
`avg = Math.round((sum / count) * 10) / 10`. -/
def statFor (stations : List Station) (fuel : String) : Option PriceStat :=
  let prices := qualifyingPrices stations fuel
  if prices.length = 0 then none
  else some
    { min := listMin prices
      max := listMax prices
      avg := round1 (prices.sum / (prices.length : ℚ))
      count := prices.length }

/-- The `priceStats` object returned in the response summary, as an
association list in JS object insertion order. -/
def priceStats (stations : List Station) : List (String × PriceStat) :=
  fuelTypes.filterMap fun fuel => (statFor stations fuel).map fun st => (fuel, st)

/-- `(a.prices[fuelType] || 0)` — the sort key of the price sort. -/
def priceOf (fuel : String) (s : Station) : ℚ :=
  (s.prices.lookup fuel).getD 0

/-- Ordering induced by the comparator
`(a, b) => (a.prices[fuelType] || 0) - (b.prices[fuelType] || 0)`. -/
def priceLe (fuel : String) (a b : Station) : Prop :=
  priceOf fuel a ≤ priceOf fuel b

instance (fuel : String) : DecidableRel (priceLe fuel) := fun a b =>
  inferInstanceAs (Decidable (priceOf fuel a ≤ priceOf fuel b))

instance (fuel : String) : IsTotal Station (priceLe fuel) :=
  ⟨fun a b => le_total (priceOf fuel a) (priceOf fuel b)⟩

instance (fuel : String) : IsTrans Station (priceLe fuel) :=
  ⟨fun _ _ _ hab hbc => le_trans hab hbc⟩

/-- `filteredStations.sort((a, b) => (a.prices[fuelType] || 0) -
(b.prices[fuelType] || 0))` — `Array.prototype.sort` is stable (ES2019), so
it is modelled by a stable insertion sort on the comparator's ordering. -/
def sortByPrice (fuel : String) (stations : List Station) : List Station :=
  List.insertionSort (priceLe fuel) stations

/-! ## Haversine distance (route.ts `calculateDistance`, two copies)

`Math.atan2 y x` agrees with the argument of the complex number `x + y*i`
(range `(-π, π]`), which is how it is modelled here. -/

noncomputable def jsAtan2 (y x : ℝ) : ℝ :=
  Complex.arg ⟨x, y⟩

/-- The `a` intermediate of the haversine formula:
`sin(dLat/2)^2 + cos(lat1°)cos(lat2°)sin(dLon/2)^2`. -/
noncomputable def havA (lat1 lon1 lat2 lon2 : ℝ) : ℝ :=
  Real.sin ((lat2 - lat1) * Real.pi / 180 / 2) *
      Real.sin ((lat2 - lat1) * Real.pi / 180 / 2) +
    Real.cos (lat1 * Real.pi / 180) * Real.cos (lat2 * Real.pi / 180) *
      (Real.sin ((lon2 - lon1) * Real.pi / 180 / 2) *
        Real.sin ((lon2 - lon1) * Real.pi / 180 / 2))

/-- The central angle `c = 2 * atan2(√a, √(1-a))`. -/
noncomputable def havC (lat1 lon1 lat2 lon2 : ℝ) : ℝ :=
  2 * jsAtan2 (Real.sqrt (havA lat1 lon1 lat2 lon2))
      (Real.sqrt (1 - havA lat1 lon1 lat2 lon2))

/-- `calculateDistance` of src/app/src/app/api/prices/current/route.ts
(`R = 3959`, miles). -/
noncomputable def calculateDistance (lat1 lon1 lat2 lon2 : ℝ) : ℝ :=
  3959 * havC lat1 lon1 lat2 lon2

/-- `calculateDistance` of src/app/src/app/api/stations/cheapest/route.ts
(`R = 6371`, kilometres); textually the same formula with the other radius. -/
noncomputable def calculateDistanceKm (lat1 lon1 lat2 lon2 : ℝ) : ℝ :=
  6371 * havC lat1 lon1 lat2 lon2

/-! ## Distance filtering (current-prices route) -/

/-- The valid-coordinate guard of the current-prices route (lines 183-187
and 234-238): `station.location && station.location.latitude &&
station.location.longitude && !isNaN(lat) && !isNaN(lng) && lat !== 0 &&
lng !== 0`.  For rational coordinates the number-truthiness test and the
explicit `!== 0` both collapse to `≠ 0` (`NaN` is not representable). -/
def hasValidCoords (s : Station) : Bool :=
  match s.location with
  | none => false
  | some loc => decide (loc.latitude ≠ 0) && decide (loc.longitude ≠ 0)

/-- A station paired with its computed `distance` property (miles). -/
structure StationD where
  station : Station
  distance : ℝ

/-- `calculateDistance(qLat, qLng, station.location.latitude,
station.location.longitude)`; the `getD` default is never used after the
`hasValidCoords` filter. -/
noncomputable def stationDistance (qLat qLng : ℝ) (s : Station) : ℝ :=
  calculateDistance qLat qLng ((s.location.getD ⟨0, 0⟩).latitude : ℝ)
    ((s.location.getD ⟨0, 0⟩).longitude : ℝ)

open Classical in
/-- The distance-filter block the route duplicates at lines 180-196
(geocoded postcode, default radius 15) and 232-254 (explicit coordinates,
default radius 30): drop records without valid coordinates, attach the
haversine distance, keep those within `maxDist`. -/
noncomputable def distanceFilterStations (qLat qLng maxDist : ℝ)
    (stations : List Station) : List StationD :=
  ((stations.filter hasValidCoords).map fun s =>
      ({ station := s, distance := stationDistance qLat qLng s } : StationD)).filter
    fun sd => decide (sd.distance ≤ maxDist)

/-- The postcode branch of the route (lines 160-220), entered when a
postcode but no explicit coordinates are given.  On a successful geocode the
distance filter runs with default radius 15 miles; on an invalid-postcode
response or a thrown geocode error the route falls back to the normalized
prefix match.  The branch never fails the query. -/
noncomputable def postcodeFilterStep (geo : GeoResult) (postcode : String)
    (maxDistance : Option ℝ) (stations : List Station) : List Station :=
  match geo with
  | .ok glat glng =>
      (distanceFilterStations glat glng (maxDistance.getD 15) stations).map
        (·.station)
  | .invalid => stations.filter (postcodeMatches postcode)
  | .fetchFailed => stations.filter (postcodeMatches postcode)

/-! ## Cheapest-stations query (src/app/src/app/api/stations/cheapest/route.ts) -/

/-- A station with the optional `distance` property of the cheapest route
(set only when user coordinates are provided). -/
structure CheapStation where
  station : Station
  distance : Option ℝ

/-- `(x.distance || Infinity)` — the tie-break key of the cheapest-route
comparator; a missing, zero (or `NaN`) distance becomes `Infinity` (`⊤`). -/
noncomputable def distKey (x : CheapStation) : WithTop ℝ :=
  match x.distance with
  | none => ⊤
  | some d => if d = 0 then ⊤ else (d : WithTop ℝ)

/-- Ordering induced by the cheapest-route comparator `(a, b) => priceDiff
!== 0 ? priceDiff : (a.distance || Infinity) - (b.distance || Infinity)`
(the ES sort treats a `NaN` comparator value, from `Infinity - Infinity`,
as equality). -/
noncomputable def cheapestLe (fuel : String) (a b : CheapStation) : Prop :=
  priceOf fuel a.station < priceOf fuel b.station ∨
    (priceOf fuel a.station = priceOf fuel b.station ∧ distKey a ≤ distKey b)

instance (fuel : String) : IsTotal CheapStation (cheapestLe fuel) :=
  ⟨fun a b => by
    unfold cheapestLe
    rcases lt_trichotomy (priceOf fuel a.station) (priceOf fuel b.station) with h | h | h
    · exact .inl (.inl h)
    · rcases le_total (distKey a) (distKey b) with h' | h'
      · exact .inl (.inr ⟨h, h'⟩)
      · exact .inr (.inr ⟨h.symm, h'⟩)
    · exact .inr (.inl h)⟩

instance (fuel : String) : IsTrans CheapStation (cheapestLe fuel) :=
  ⟨fun a b c hab hbc => by
    unfold cheapestLe at *
    rcases hab with hab | ⟨hab, hab'⟩ <;> rcases hbc with hbc | ⟨hbc, hbc'⟩
    · exact .inl (hab.trans hbc)
    · exact .inl (hbc ▸ hab)
    · exact .inl (hab ▸ hbc)
    · exact .inr ⟨hab.trans hbc, hab'.trans hbc'⟩⟩

/-- `Math.round(distance * 10) / 10` over the reals. -/
noncomputable def roundKm1 (d : ℝ) : ℝ :=
  ((round (d * 10) : ℤ) : ℝ) / 10

/-- `allStations.filter(s => s.prices[fuel] !== undefined && s.prices[fuel]
> 0)` of the cheapest route, with the (not yet set) `distance` property. -/
noncomputable def cheapestWithFuel (fuel : String) (allStations : List Station) :
    List CheapStation :=
  (allStations.filter (hasFuelB fuel)).map fun s =>
    ({ station := s, distance := none } : CheapStation)

/-- The `forEach` that sets `station.distance = Math.round(distance * 10) /
10` from the user's coordinates — note it runs on every record, with no
coordinate-validity guard. -/
noncomputable def cheapestAttachD (qLat qLng : ℚ) (l : List CheapStation) :
    List CheapStation :=
  l.map fun x =>
    { station := x.station
      distance := some (roundKm1 (calculateDistanceKm (qLat : ℝ) (qLng : ℝ)
        (((x.station.location.getD ⟨0, 0⟩).latitude : ℚ) : ℝ)
        (((x.station.location.getD ⟨0, 0⟩).longitude : ℚ) : ℝ))) }

open Classical in
/-- The cheapest-stations query pipeline (route lines 64-124), after the
per-retailer files have been aggregated into `allStations`: filter to
stations selling the fuel; if user coordinates were supplied (`lat !== 0 &&
lng !== 0`), attach rounded distances, keep stations whose distance is falsy
(`!station.distance`, i.e. `0`; `NaN` not modelled) or `<= maxDistance`,
sort by price then distance and truncate; otherwise sort by price and
truncate.  Note: this path has no valid-coordinate guard — distances are
computed from whatever coordinates the record carries. -/
noncomputable def cheapestQuery (fuel : String) (lim : ℕ) (qLat qLng : ℚ)
    (maxDistance : ℤ) (allStations : List Station) : List CheapStation :=
  if qLat ≠ 0 ∧ qLng ≠ 0 then
    (List.insertionSort (cheapestLe fuel)
      ((cheapestAttachD qLat qLng (cheapestWithFuel fuel allStations)).filter fun sd =>
        decide (sd.distance.getD 0 = 0) ||
          decide (sd.distance.getD 0 ≤ (maxDistance : ℝ)))).take lim
  else
    (List.insertionSort (cheapestLe fuel) (cheapestWithFuel fuel allStations)).take lim

/-! ## Concrete sample data used by scenarios and witnesses -/

def sampleStationA : Station :=
  { site_id := "A", brand := "BrandA", address := "1 High St", postcode := "SW1A 1AA"
    location := some { latitude := 51.5, longitude := -0.12 }
    prices := [("E10", 140.9)] }

def sampleStationB : Station :=
  { site_id := "B", brand := "BrandB", address := "2 Low St", postcode := "EC1A 1BB"
    location := none
    prices := [("E10", 135.0)] }

/-- Prior snapshot of the C1 counterexample: one station selling only E10. -/
def cex1Old : FuelData :=
  { last_updated := 0
    stations := [{ site_id := "A", brand := "", address := "", postcode := ""
                   location := none, prices := [("E10", 100)] }] }

/-- Incoming snapshot of the C1 counterexample: the same station with the
same E10 price, now also listing an E5 price the prior snapshot lacked. -/
def cex1New : FuelData :=
  { last_updated := 3600000
    stations := [{ site_id := "A", brand := "", address := "", postcode := ""
                   location := none, prices := [("E10", 100), ("E5", 120)] }] }

/-- Station of the C4 counterexample: it sells E10 but its coordinates are
the invalid `(0, 0)`. -/
def cex4Station : Station :=
  { site_id := "X", brand := "ZeroBrand", address := "", postcode := "ZZ1 1ZZ"
    location := some { latitude := 0, longitude := 0 }
    prices := [("E10", 100)] }

/-- A source whose three attempts all time out. -/
def allFailEnv : ℕ → Except String FuelData := fun _ => .error "timeout"

/-! ### Bridging lemmas for the archive decision -/

lemma stationChanged_eq_decide (ns os : Station) :
    stationChanged ns os = decide (∃ e ∈ ns.prices, PriceEntryChanged os e) := by
  rw [Bool.eq_iff_iff, decide_eq_true_iff]
  unfold stationChanged
  rw [List.any_eq_true]
  refine exists_congr fun e => and_congr_right fun _ => ?_
  cases h : os.prices.lookup e.1 with
  | none => simp [PriceEntryChanged, h]
  | some v => simp [PriceEntryChanged, h]

lemma changedInSnapshot_eq_decide (oldStations : List Station) (ns : Station) :
    changedInSnapshot oldStations ns = decide (MaterialChange oldStations ns) := by
  unfold changedInSnapshot
  cases h : findStation oldStations ns.site_id with
  | none => simp [MaterialChange, h]
  | some os =>
      show stationChanged ns os = decide (MaterialChange oldStations ns)
      rw [stationChanged_eq_decide]
      simp [MaterialChange, h]

lemma changedStations_eq_material_count (newStations oldStations : List Station) :
    changedStations newStations oldStations =
      (newStations.filter fun ns => decide (MaterialChange oldStations ns)).length := by
  unfold changedStations
  rw [List.filter_congr fun ns _ => changedInSnapshot_eq_decide oldStations ns]

/-! ## Helper lemmas on keyed `filterMap` association lists -/

lemma lookup_keyed_filterMap_of_not_mem {α β : Type} [BEq α] [LawfulBEq α]
    (g : α → Option β) (fs : List α) (k : α) :
    k ∉ fs → (fs.filterMap fun f => (g f).map fun st => (f, st)).lookup k = none := by
  induction fs with
  | nil => intro _; rfl
  | cons a t ih =>
    intro hk
    simp only [List.mem_cons, not_or] at hk
    cases h : g a with
    | none => simp only [List.filterMap_cons, h, Option.map_none']; exact ih hk.2
    | some st =>
        simp only [List.filterMap_cons, h, Option.map_some']
        rw [List.lookup, beq_eq_false_iff_ne.mpr hk.1]
        exact ih hk.2

lemma lookup_keyed_filterMap {α β : Type} [BEq α] [LawfulBEq α]
    (g : α → Option β) (fs : List α) (k : α) :
    fs.Nodup → k ∈ fs →
      (fs.filterMap fun f => (g f).map fun st => (f, st)).lookup k = g k := by
  induction fs with
  | nil => intro _ hk; cases hk
  | cons a t ih =>
    intro hnd hk
    rw [List.nodup_cons] at hnd
    rcases List.mem_cons.mp hk with rfl | hkt
    · cases h : g k with
      | none =>
          simp only [List.filterMap_cons, h, Option.map_none']
          rw [lookup_keyed_filterMap_of_not_mem g t k hnd.1]
      | some st =>
          simp only [List.filterMap_cons, h, Option.map_some']
          simp [List.lookup]
    · have hka : k ≠ a := fun he => hnd.1 (he ▸ hkt)
      cases h : g a with
      | none => simp only [List.filterMap_cons, h, Option.map_none']; exact ih hnd.2 hkt
      | some st =>
          simp only [List.filterMap_cons, h, Option.map_some']
          rw [List.lookup, beq_eq_false_iff_ne.mpr hka]
          exact ih hnd.2 hkt

lemma lookup_priceStats (stations : List Station) (fuel : String)
    (h : fuel ∈ fuelTypes) :
    (priceStats stations).lookup fuel = statFor stations fuel :=
  lookup_keyed_filterMap (statFor stations) fuelTypes fuel (by decide) h

lemma qualifyingPrices_eq_filter (stations : List Station) (fuel : String) :
    qualifyingPrices stations fuel =
      (stations.filterMap fun s => s.prices.lookup fuel).filter
        fun p => decide (0 < p) := by
  induction stations with
  | nil => rfl
  | cons s t ih =>
    unfold qualifyingPrices at *
    cases h : s.prices.lookup fuel with
    | none => simp only [List.filterMap_cons, h]; exact ih
    | some p =>
        by_cases hp : 0 < p
        · simp only [List.filterMap_cons, h, if_pos hp, List.filter_cons,
            decide_eq_true hp, if_true]
          rw [ih]
        · simp only [List.filterMap_cons, h, if_neg hp, List.filter_cons,
            decide_eq_false hp, Bool.false_eq_true, if_false]
          exact ih

/-- Entries of a price map whose key is outside `keys` do not affect lookups
of keys inside `keys`. -/
lemma lookup_filter_contains {β : Type} (l : List (String × β)) (keys : List String)
    (k : String) (hk : keys.contains k = true) :
    (l.filter fun e => keys.contains e.1).lookup k = l.lookup k := by
  induction l with
  | nil => rfl
  | cons e t ih =>
    by_cases hmem : keys.contains e.1 = true
    · rw [List.filter_cons, if_pos (by simpa using hmem)]
      by_cases hke : k = e.1
      · subst hke; simp [List.lookup]
      · rw [List.lookup, beq_eq_false_iff_ne.mpr hke, List.lookup,
          beq_eq_false_iff_ne.mpr hke]
        exact ih
    · have hke : k ≠ e.1 := fun he => hmem (he ▸ hk)
      rw [List.filter_cons, if_neg (by simpa using hmem), List.lookup,
        beq_eq_false_iff_ne.mpr hke]
      exact ih

/-! ## Stability of the price sort -/

lemma filter_key_sortByPrice (fuel : String) (p : ℚ) (stations : List Station) :
    ((sortByPrice fuel stations).filter fun s => priceOf fuel s == p) =
      stations.filter fun s => priceOf fuel s == p := by
  have hpair : (stations.filter fun s => priceOf fuel s == p).Pairwise (priceLe fuel) := by
    refine List.pairwise_of_forall_mem_list ?_
    intro a ha b hb
    have hap : priceOf fuel a = p := by simpa using (List.mem_filter.mp ha).2
    have hbp : priceOf fuel b = p := by simpa using (List.mem_filter.mp hb).2
    unfold priceLe
    rw [hap, hbp]
  have hsub : List.Sublist (stations.filter fun s => priceOf fuel s == p)
      (sortByPrice fuel stations) :=
    List.sublist_insertionSort hpair (List.filter_sublist stations)
  have hsub2 : List.Sublist (stations.filter fun s => priceOf fuel s == p)
      ((sortByPrice fuel stations).filter fun s => priceOf fuel s == p) := by
    have h2 := hsub.filter fun s => priceOf fuel s == p
    simpa [List.filter_filter] using h2
  have hperm : List.Perm ((sortByPrice fuel stations).filter fun s => priceOf fuel s == p)
      (stations.filter fun s => priceOf fuel s == p) :=
    (List.perm_insertionSort (priceLe fuel) stations).filter _
  exact (hsub2.eq_of_length hperm.length_eq.symm).symm

/-! ## Haversine lemmas -/

lemma havA_symm (lat1 lon1 lat2 lon2 : ℝ) :
    havA lat1 lon1 lat2 lon2 = havA lat2 lon2 lat1 lon1 := by
  unfold havA
  rw [show (lat1 - lat2) * Real.pi / 180 / 2 =
      -((lat2 - lat1) * Real.pi / 180 / 2) by ring,
    show (lon1 - lon2) * Real.pi / 180 / 2 =
      -((lon2 - lon1) * Real.pi / 180 / 2) by ring,
    Real.sin_neg, Real.sin_neg]
  ring

lemma havA_self (lat lon : ℝ) : havA lat lon lat lon = 0 := by
  unfold havA
  simp

lemma jsAtan2_zero_one : jsAtan2 0 1 = 0 := by
  unfold jsAtan2
  have h : (⟨1, 0⟩ : ℂ) = 1 := Complex.ext (by simp) (by simp)
  rw [h, Complex.arg_one]

lemma havC_symm (lat1 lon1 lat2 lon2 : ℝ) :
    havC lat1 lon1 lat2 lon2 = havC lat2 lon2 lat1 lon1 := by
  unfold havC
  rw [havA_symm]

lemma havC_self (lat lon : ℝ) : havC lat lon lat lon = 0 := by
  unfold havC
  rw [havA_self]
  norm_num [jsAtan2_zero_one]

lemma havC_bounds (lat1 lon1 lat2 lon2 : ℝ) :
    0 ≤ havC lat1 lon1 lat2 lon2 ∧ havC lat1 lon1 lat2 lon2 ≤ 2 * Real.pi := by
  unfold havC jsAtan2
  have h1 : 0 ≤ Complex.arg ⟨Real.sqrt (1 - havA lat1 lon1 lat2 lon2),
      Real.sqrt (havA lat1 lon1 lat2 lon2)⟩ :=
    Complex.arg_nonneg_iff.mpr (Real.sqrt_nonneg _)
  have h2 : Complex.arg ⟨Real.sqrt (1 - havA lat1 lon1 lat2 lon2),
      Real.sqrt (havA lat1 lon1 lat2 lon2)⟩ ≤ Real.pi :=
    Complex.arg_le_pi _
  constructor <;> linarith

lemma calculateDistanceKm_le (lat1 lon1 lat2 lon2 : ℝ) :
    calculateDistanceKm lat1 lon1 lat2 lon2 ≤ 41000 := by
  unfold calculateDistanceKm
  obtain ⟨h0, h2⟩ := havC_bounds lat1 lon1 lat2 lon2
  have hpi : Real.pi < 3.15 := Real.pi_lt_d2
  nlinarith

lemma roundKm1_le_of_le (d : ℝ) (h : d ≤ 41000) : roundKm1 d ≤ 1000000 := by
  unfold roundKm1
  have h2 : ((round (d * 10) : ℤ) : ℝ) ≤ d * 10 + 1 / 2 := round_le_add_half (d * 10)
  linarith

/-! ## Claim theorems -/

/-- C9: with a prior snapshot less than 24 hours old, an incoming snapshot
containing zero stations never triggers an archive: the decision still
returns the defined boolean `false`.  (In JS the fraction is `0/0 = NaN`
and `NaN > 0.05` is false; in the `ℚ` model the fraction is `0/0 = 0` and
`0 > 0.05` is false — the same observable outcome.) -/

theorem claim9_empty_snapshot_no_archive (ex : FuelData) (nowMs : ℚ)
    (newData : FuelData) (hempty : newData.stations = [])
    (hfresh : (nowMs - ex.last_updated) / (1000 * 60 * 60) < 24) :
    shouldArchiveData (some ex) nowMs newData = false := by
  simp only [shouldArchiveData]
  rw [if_neg (not_le.mpr hfresh), hempty]
  norm_num [changedStations, decide_eq_false_iff_not]

theorem claim9_witness :
    (⟨7200000, []⟩ : FuelData).stations = [] ∧
    ((3600000 : ℚ) - (⟨0, [sampleStationA]⟩ : FuelData).last_updated) /
      (1000 * 60 * 60) < 24 ∧
    shouldArchiveData (some ⟨0, [sampleStationA]⟩) 3600000 ⟨7200000, []⟩ = false :=
  ⟨rfl, by norm_num,
    claim9_empty_snapshot_no_archive ⟨0, [sampleStationA]⟩ 3600000 ⟨7200000, []⟩ rfl
      (by norm_num)⟩

/-- C1 (counterexample): the claim's characterisation fails on the code in
two ways.  (a) Storage library: prior snapshot 1 hour old; the single
station is present in the prior snapshot and no fuel price differs from an
existing prior value by more than 1 unit (the claim's material-change
fraction is 0), yet `shouldArchiveData` returns `true`, because the new
price map carries an `E5` entry whose prior value is missing
(`!existingPrice`).  (b) The standalone collector's `shouldArchiveData`
(also cited by the claim) ignores the snapshots entirely and returns `true`
at hour 12, so the quiet-update scenario does not yield `false` on that
decision either. -/
theorem claim1_counterexample :
    ((3600000 : ℚ) - cex1Old.last_updated) / (1000 * 60 * 60) < 24 ∧
    shouldArchiveData (some cex1Old) 3600000 cex1New = true ∧
    ¬ ((specChangedStations cex1New.stations cex1Old.stations : ℚ) /
        (cex1New.stations.length : ℚ) > 5 / 100) ∧
    shouldArchiveDataScript 12 = true := by
  have hfresh : ¬ (24 : ℚ) ≤ (3600000 - cex1Old.last_updated) / (1000 * 60 * 60) := by
    norm_num [cex1Old]
  refine ⟨by norm_num [cex1Old], ?_, ?_, rfl⟩
  · simp only [shouldArchiveData]
    rw [if_neg hfresh]
    have hcount : changedStations cex1New.stations cex1Old.stations = 1 := by
      simp [changedStations, changedInSnapshot, findStation, stationChanged,
        cex1Old, cex1New, List.lookup]
    rw [hcount]
    norm_num [cex1New, decide_eq_true_iff]
  · have habs : (decide ((1 : ℚ) < |100 - 100|)) = false := by norm_num
    have hcount : specChangedStations cex1New.stations cex1Old.stations = 0 := by
      simp [specChangedStations, specChangedInSnapshot, findStation,
        cex1Old, cex1New, List.lookup, habs]
    rw [hcount]
    norm_num [cex1New]

/-- C1 (amended): for a prior current snapshot less than 24 hours old, the
storage library's archive decision returns `true` exactly when the fraction
of materially changed stations exceeds 5 %, where a station counts as
materially changed when it is absent from the prior snapshot (joined by
`site_id`) or some fuel entry of its price map has a prior value that is
missing, zero, or differing from the new price by more than 1 unit; the
standalone collector's decision instead returns `true` exactly when the
current hour is divisible by 6. -/
theorem claim1_archive_change_fraction :
    (∀ (ex : FuelData) (nowMs : ℚ) (newData : FuelData),
        (nowMs - ex.last_updated) / (1000 * 60 * 60) < 24 →
        (shouldArchiveData (some ex) nowMs newData = true ↔
          ((newData.stations.filter fun ns =>
              decide (MaterialChange ex.stations ns)).length : ℚ) /
            (newData.stations.length : ℚ) > 5 / 100)) ∧
    ∀ hour : ℕ, shouldArchiveDataScript hour = true ↔ hour % 6 = 0 := by
  constructor
  · intro ex nowMs newData hfresh
    simp only [shouldArchiveData]
    rw [if_neg (not_le.mpr hfresh), decide_eq_true_iff,
      changedStations_eq_material_count]
    norm_num
  · intro hour
    simp [shouldArchiveDataScript]

theorem claim1_witness :
    ((3600000 : ℚ) - cex1Old.last_updated) / (1000 * 60 * 60) < 24 ∧
    (shouldArchiveData (some cex1Old) 3600000 cex1New = true ↔
      ((cex1New.stations.filter fun ns =>
          decide (MaterialChange cex1Old.stations ns)).length : ℚ) /
        (cex1New.stations.length : ℚ) > 5 / 100) :=
  ⟨by norm_num [cex1Old],
    claim1_archive_change_fraction.1 cex1Old 3600000 cex1New (by norm_num [cex1Old])⟩

/-- C2 (counterexample): at an environment where a concurrent writer changed
the revision between the read and the write, `saveCurrentData` issues no
second read and no second write — the conflict is not retried, the error is
surfaced after the single attempt. -/
theorem claim2_counterexample :
    saveCurrentData ⟨some 1, some 2⟩ =
      { saved := false, getCalls := 1, putCalls := 1, putShas := [some 1] } ∧
    ¬ 2 ≤ (saveCurrentData ⟨some 1, some 2⟩).putCalls ∧
    ¬ 2 ≤ (saveCurrentData ⟨some 1, some 2⟩).getCalls := by
  refine ⟨?_, by decide, by decide⟩
  simp [saveCurrentData]

/-- C2 (amended): every current-snapshot write is a compare-and-swap keyed
on the revision token read just before it (the single write always carries
exactly that token — a blind overwrite is never issued), and it fails iff a
concurrent writer changed the token; a conflict is NOT retried — the
single-attempt failure is surfaced, and the bulk save isolates it per
retailer without affecting the others. -/
theorem claim2_cas_write_no_retry :
    ∀ env : SaveEnv,
      (saveCurrentData env).putShas = [env.existingSha] ∧
      (saveCurrentData env).putCalls = 1 ∧
      (saveCurrentData env).getCalls = 1 ∧
      ((saveCurrentData env).saved = false ↔ env.existingSha ≠ env.shaAtWrite) ∧
      ∀ (pre : List (String × SaveEnv)) (x : String × SaveEnv) post,
        saveBulkData (pre ++ x :: post) =
          saveBulkData pre ++ (x.1, (saveCurrentData x.2).saved) :: saveBulkData post := by
  intro env
  refine ⟨rfl, rfl, rfl, ?_, ?_⟩
  · simp [saveCurrentData]
  · intro pre x post
    simp [saveBulkData]

/-- C7: each source is attempted up to 3 times with a fixed 2000 ms delay
between attempts; exhausted retries collapse into a single
`FetchResult{success := false}` carrying the last error, without raising a
fatal error; a first-attempt success yields a success result; the cycle
produces exactly one result per source, a failing source leaving the
others' results untouched; and downstream aggregation keeps every
successful result. -/
theorem claim7_retry_policy :
    (∀ (name : String) (env : ℕ → Except String FuelData) (e1 e2 e3 : String),
        env 1 = .error e1 → env 2 = .error e2 → env 3 = .error e3 →
        fetchRetailerData name env = ⟨failFetchResult name e3, 3, [2000, 2000]⟩) ∧
    (∀ (name : String) (env : ℕ → Except String FuelData) (d : FuelData),
        env 1 = .ok d →
        fetchRetailerData name env = ⟨okFetchResult name d, 1, []⟩) ∧
    (∀ (pre : List (String × (ℕ → Except String FuelData))) (x : _ × _) post,
        runFetchCycle (pre ++ x :: post) =
          runFetchCycle pre ++
            (fetchRetailerData x.1 x.2).result :: runFetchCycle post) ∧
    (∀ (results : List FetchResult) (r : FetchResult),
        r ∈ results → r.success = true → r ∈ successfulResults results) := by
  refine ⟨?_, ?_, ?_, ?_⟩
  · intro name env e1 e2 e3 h1 h2 h3
    unfold fetchRetailerData
    rw [h1, h2, h3]
  · intro name env d h1
    unfold fetchRetailerData
    rw [h1]
  · intro pre x post
    simp [runFetchCycle]
  · intro results r hmem hsucc
    simp [successfulResults, List.mem_filter, hmem, hsucc]

theorem claim7_witness :
    allFailEnv 1 = .error "timeout" ∧
    fetchRetailerData "BP" allFailEnv =
      ⟨failFetchResult "BP" "timeout", 3, [2000, 2000]⟩ :=
  ⟨rfl, claim7_retry_policy.1 "BP" allFailEnv "timeout" "timeout" "timeout" rfl rfl rfl⟩

/-- C5: for every filtered record set and every one of the hardcoded fuel
codes, the reported statistic is computed over exactly the prices that are
present and strictly positive; its `avg` is their sum divided by their
count, rounded to one decimal; and when no qualifying price exists the fuel
code is omitted from the map entirely. -/
theorem claim5_price_stats (stations : List Station) (fuel : String)
    (h : fuel ∈ fuelTypes) :
    (priceStats stations).lookup fuel =
      (if (qualifyingPrices stations fuel).length = 0 then none
       else some
         { min := listMin (qualifyingPrices stations fuel)
           max := listMax (qualifyingPrices stations fuel)
           avg := round1 ((qualifyingPrices stations fuel).sum /
             ((qualifyingPrices stations fuel).length : ℚ))
           count := (qualifyingPrices stations fuel).length }) ∧
    qualifyingPrices stations fuel =
      (stations.filterMap fun s => s.prices.lookup fuel).filter
        fun p => decide (0 < p) :=
  ⟨lookup_priceStats stations fuel h, qualifyingPrices_eq_filter stations fuel⟩

theorem claim5_witness :
    "E10" ∈ fuelTypes ∧
    ((priceStats [sampleStationA, sampleStationB]).lookup "E10" =
      (if (qualifyingPrices [sampleStationA, sampleStationB] "E10").length = 0 then none
       else some
         { min := listMin (qualifyingPrices [sampleStationA, sampleStationB] "E10")
           max := listMax (qualifyingPrices [sampleStationA, sampleStationB] "E10")
           avg := round1 ((qualifyingPrices [sampleStationA, sampleStationB] "E10").sum /
             ((qualifyingPrices [sampleStationA, sampleStationB] "E10").length : ℚ))
           count := (qualifyingPrices [sampleStationA, sampleStationB] "E10").length }) ∧
      qualifyingPrices [sampleStationA, sampleStationB] "E10" =
        (([sampleStationA, sampleStationB]).filterMap fun s =>
            s.prices.lookup "E10").filter fun p => decide (0 < p)) :=
  ⟨by decide, claim5_price_stats [sampleStationA, sampleStationB] "E10" (by decide)⟩

/-- C10: the returned statistics map only ever carries the four hardcoded
fuel codes, and prices stored under any other code contribute nothing:
deleting every non-standard price entry from every station leaves
`priceStats` unchanged. -/
theorem claim10_stats_closed_keys (stations : List Station) :
    (priceStats stations).Forall (fun e => e.1 ∈ fuelTypes) ∧
    priceStats (stations.map fun s =>
        { s with prices := s.prices.filter fun e => fuelTypes.contains e.1 }) =
      priceStats stations := by
  constructor
  · rw [List.forall_iff_forall_mem]
    intro e he
    obtain ⟨fuel, hfuel, hmap⟩ := List.mem_filterMap.mp he
    cases h : statFor stations fuel with
    | none => rw [h] at hmap; cases hmap
    | some st =>
        rw [h] at hmap
        cases hmap
        exact hfuel
  · unfold priceStats
    refine List.filterMap_congr fun fuel hfuel => ?_
    have hq : qualifyingPrices (stations.map fun s =>
        { s with prices := s.prices.filter fun e => fuelTypes.contains e.1 }) fuel =
        qualifyingPrices stations fuel := by
      unfold qualifyingPrices
      rw [List.filterMap_map]
      refine List.filterMap_congr fun s _ => ?_
      rw [Function.comp_apply,
        lookup_filter_contains s.prices fuelTypes fuel (by simpa using hfuel)]
    unfold statFor
    rw [hq]

/-- C6: with a fuel type and `sortBy = price`, the output is sorted
ascending on the fuel's price (so every adjacent pair satisfies
`price[i] <= price[i+1]`), the sort is stable — the records carrying any
given price value appear in exactly their upstream aggregation order — and
the two-source scenario `[A(140.9), B(135.0)]` is returned as `[B, A]`. -/
theorem claim6_price_sort :
    (∀ (fuel : String) (stations : List Station),
        List.Sorted (priceLe fuel) (sortByPrice fuel stations) ∧
        ∀ p : ℚ,
          ((sortByPrice fuel stations).filter fun s => priceOf fuel s == p) =
            stations.filter fun s => priceOf fuel s == p) ∧
    sortByPrice "E10" [sampleStationA, sampleStationB] =
      [sampleStationB, sampleStationA] := by
  constructor
  · intro fuel stations
    exact ⟨List.sorted_insertionSort (priceLe fuel) stations,
      fun p => filter_key_sortByPrice fuel p stations⟩
  · have h : ¬ priceLe "E10" sampleStationA sampleStationB := by
      norm_num [priceLe, priceOf, sampleStationA, sampleStationB, List.lookup]
    simp [sortByPrice, List.insertionSort, List.orderedInsert, h]

/-- C3: when the geocoder rejects the postcode (invalid-postcode response or
thrown fetch error), the query does not fail: the result is exactly the
stations whose whitespace-stripped, lowercased postcode starts with the
normalized query postcode; in particular stations postcoded "SW1A 1AA" and
"EC1A 1BB" queried with "sw1a" under geocoder failure yield only the
first. -/
theorem claim3_postcode_fallback :
    (∀ geo : GeoResult, geo = .invalid ∨ geo = .fetchFailed →
      ∀ (pc : String) (maxD : Option ℝ) (stations : List Station) (s : Station),
        s ∈ postcodeFilterStep geo pc maxD stations ↔
          s ∈ stations ∧ postcodeMatches pc s = true) ∧
    postcodeFilterStep .invalid "sw1a" none [sampleStationA, sampleStationB] =
      [sampleStationA] := by
  constructor
  · rintro geo (rfl | rfl) pc maxD stations s <;>
      simp [postcodeFilterStep, List.mem_filter]
  · show List.filter (postcodeMatches "sw1a") [sampleStationA, sampleStationB] =
      [sampleStationA]
    rfl

theorem claim3_witness :
    (GeoResult.invalid = GeoResult.invalid ∨ GeoResult.invalid = GeoResult.fetchFailed) ∧
    (sampleStationA ∈
        postcodeFilterStep .invalid "sw1a" none [sampleStationA, sampleStationB] ↔
      sampleStationA ∈ [sampleStationA, sampleStationB] ∧
        postcodeMatches "sw1a" sampleStationA = true) :=
  ⟨Or.inl rfl,
    claim3_postcode_fallback.1 .invalid (Or.inl rfl) "sw1a" none
      [sampleStationA, sampleStationB] sampleStationA⟩

/-- C8: the haversine distance of both code paths (radius 3959 miles in the
current-prices route, 6371 km in the cheapest route) is symmetric, and the
distance from any point to itself is 0 — over the reals the identities are
exact, hence certainly within floating epsilon. -/
theorem claim8_haversine_symm_self :
    (∀ lat1 lon1 lat2 lon2 : ℝ,
        calculateDistance lat1 lon1 lat2 lon2 = calculateDistance lat2 lon2 lat1 lon1 ∧
        calculateDistanceKm lat1 lon1 lat2 lon2 =
          calculateDistanceKm lat2 lon2 lat1 lon1) ∧
    ∀ lat lon : ℝ,
        calculateDistance lat lon lat lon = 0 ∧
        calculateDistanceKm lat lon lat lon = 0 := by
  constructor
  · intro lat1 lon1 lat2 lon2
    unfold calculateDistance calculateDistanceKm
    rw [havC_symm]
    exact ⟨rfl, rfl⟩
  · intro lat lon
    unfold calculateDistance calculateDistanceKm
    rw [havC_self]
    norm_num

/-- C4 (amended): on the current-prices distance paths (explicit coordinates
and successfully geocoded postcode, both of which run
`distanceFilterStations`), every record of the output has valid coordinates
— records lacking them are dropped before any distance is computed. -/
theorem claim4_distance_paths_valid_coords (qLat qLng maxD : ℝ)
    (stations : List Station) :
    (distanceFilterStations qLat qLng maxD stations).Forall
      fun sd => hasValidCoords sd.station = true := by
  rw [List.forall_iff_forall_mem]
  intro sd hmem
  unfold distanceFilterStations at hmem
  obtain ⟨s, hs, rfl⟩ := List.mem_map.mp (List.mem_filter.mp hmem).1
  exact (List.mem_filter.mp hs).2

/-- C4 (counterexample): the cheapest-stations path does not exclude records
lacking valid coordinates: a station at the invalid coordinates `(0, 0)`
survives the whole cheapest pipeline (user at `(1, 1)`, `max_distance`
1000000 km) and is returned, its distance having been computed from the
invalid coordinates. -/
theorem claim4_counterexample :
    hasValidCoords cex4Station = false ∧
    (cheapestQuery "E10" 10 1 1 1000000 [cex4Station]).map (·.station) =
      [cex4Station] := by
  constructor
  · simp [hasValidCoords, cex4Station]
  · unfold cheapestQuery
    rw [if_pos (⟨by norm_num, by norm_num⟩ : (1 : ℚ) ≠ 0 ∧ (1 : ℚ) ≠ 0)]
    have hfuelB : hasFuelB "E10" cex4Station = true := by
      norm_num [hasFuelB, cex4Station, List.lookup]
    have hbound : roundKm1 (calculateDistanceKm 1 1
        (((cex4Station.location.getD ⟨0, 0⟩).latitude : ℚ) : ℝ)
        (((cex4Station.location.getD ⟨0, 0⟩).longitude : ℚ) : ℝ)) ≤ (1000000 : ℝ) :=
      roundKm1_le_of_le _ (calculateDistanceKm_le _ _ _ _)
    simp [cheapestWithFuel, cheapestAttachD, hfuelB, decide_eq_true hbound,
      List.insertionSort, List.orderedInsert]
